import Mathlib

/-!
Verification of the API-quota governor and the turn-based debate state
machine of the Debate Master application.

The quota governor is the GeminiService class (geminiService.ts): it
tracks daily call and token counts, a sliding one-call-per-minute
window, persists counters to localStorage under the key
gemini_daily_stats, and gates every outbound AI request.  The turn
state machine lives in the PracticeDebate component
(PracticeDebate.tsx): sendMessage, generateAIResponse and endDebate.

Modelling conventions:
- Timestamps are milliseconds since the epoch, modelled as Int
  (Date.now in JS); calendar dates (Date.toDateString) are opaque
  String values compared for equality.
- Counters are Nat; JS numbers in the governor are only ever
  incremented from 0 by Nat amounts.
- localStorage is modelled as the field stored : Option StoredStats
  carried inside the governor state; saveDailyStats copies the four
  persisted fields into it.  JSON serialisation of a well-formed
  record is lossless, so the stored record keeps the fields directly.
- The debug-only counter this.callCount (call-ID generation and
  logging) influences no quota decision and no claimed behaviour; it
  is elided from the state.
- The AI provider (model.generateContent) is an external collaborator;
  its outcome is passed in as an Except String String argument.
-/

/-- One entry of callHistory: timestamp in ms and estimated tokens. -/
structure CallRecord where
  timestamp : Int
  tokens : Nat
deriving Repr, DecidableEq

/-- The four fields persisted to localStorage by saveDailyStats. -/
structure StoredStats where
  callCount : Nat
  tokenCount : Nat
  lastResetDate : String
  isQuotaExceeded : Bool
deriving Repr, DecidableEq

/-- The mutable state of the GeminiService quota governor, together
with the persisted localStorage record. -/
structure GeminiState where
  dailyCallCount : Nat
  dailyTokenCount : Nat
  lastResetDate : String
  callHistory : List CallRecord
  isQuotaExceeded : Bool
  stored : Option StoredStats
deriving Repr, DecidableEq

/-- Free tier limit: DAILY_CALL_LIMIT = 50. -/
def DAILY_CALL_LIMIT : Nat := 50

/-- Free tier limit: DAILY_TOKEN_LIMIT = 15000. -/
def DAILY_TOKEN_LIMIT : Nat := 15000

/-- Free tier limit: CALLS_PER_MINUTE = 1. -/
def CALLS_PER_MINUTE : Nat := 1

/-- saveDailyStats: copy the four persisted fields into localStorage. -/
def saveDailyStats (st : GeminiState) : GeminiState :=
  { st with stored := some ⟨st.dailyCallCount, st.dailyTokenCount,
                            st.lastResetDate, st.isQuotaExceeded⟩ }

/-- resetDailyStatsIfNeeded: lazy daily rollover.  If the current date
string differs from lastResetDate, zero the daily counters, clear the
exceeded flag, stamp the new date and persist. -/
def resetDailyStatsIfNeeded (st : GeminiState) (today : String) : GeminiState :=
  if st.lastResetDate ≠ today then
    saveDailyStats { st with
      dailyCallCount := 0
      dailyTokenCount := 0
      lastResetDate := today
      isQuotaExceeded := false }
  else st

/-- Result record of checkQuotaLimits. -/
structure QuotaCheck where
  canMakeCall : Bool
  reason : Option String
  waitTime : Option Int
deriving Repr, DecidableEq

/-- Reason string returned when the daily call limit is hit. -/
def dailyCallLimitReason : String :=
  "Daily call limit reached (50/day). Quota resets at 12:00 AM Pacific Time."

/-- Reason string returned when the daily token limit is hit. -/
def dailyTokenLimitReason : String :=
  "Daily token limit reached (15000/day). Quota resets at 12:00 AM Pacific Time."

/-- Reason string returned when the per-minute rate limit is hit. -/
def rateLimitReason (waitTime : Int) : String :=
  "Rate limit: 1 call per minute. Please wait " ++ toString waitTime ++ " seconds."

/-- Math.min over the mapped timestamps of a list of calls.  The code
only evaluates it on a nonempty list (the rate-limit branch). -/
def oldestTimestamp : List CallRecord → Int
  | [] => 0
  | c :: cs => cs.foldl (fun acc r => min acc r.timestamp) c.timestamp

/-- Math.ceil (ms / 1000) for an integer number of milliseconds:
floor division of ms + 999 by 1000 (integer division rounds toward
negative infinity for a positive divisor, so this is the exact
ceiling). -/
def ceilSeconds (ms : Int) : Int := (ms + 999) / 1000

/-- checkQuotaLimits: lazily roll the day over, then test the daily
call limit, the daily token limit, and the trailing 60 second window,
in that order.  Denials carry a reason; a rate denial also carries
waitTime.  The state is returned because the daily branches set and
persist isQuotaExceeded and the rollover mutates the counters. -/
def checkQuotaLimits (st : GeminiState) (today : String) (now : Int) :
    QuotaCheck × GeminiState :=
  let st := resetDailyStatsIfNeeded st today
  if st.dailyCallCount ≥ DAILY_CALL_LIMIT then
    let st := saveDailyStats { st with isQuotaExceeded := true }
    (⟨false, some dailyCallLimitReason, none⟩, st)
  else if st.dailyTokenCount ≥ DAILY_TOKEN_LIMIT then
    let st := saveDailyStats { st with isQuotaExceeded := true }
    (⟨false, some dailyTokenLimitReason, none⟩, st)
  else
    let oneMinuteAgo := now - 60000
    let recentCalls := st.callHistory.filter (fun c => c.timestamp > oneMinuteAgo)
    if recentCalls.length ≥ CALLS_PER_MINUTE then
      let oldestCall := oldestTimestamp recentCalls
      let waitTime := ceilSeconds (oldestCall + 60000 - now)
      (⟨false, some (rateLimitReason waitTime), some waitTime⟩, st)
    else
      (⟨true, none, none⟩, st)

/-- slice(-60): the most recent 60 entries of a list. -/
def lastSixty (l : List CallRecord) : List CallRecord :=
  if l.length > 60 then l.drop (l.length - 60) else l

/-- updateQuotaUsage: increment the daily call count, add the token
estimate, append the call record, trim the history to the most recent
60 entries, persist. -/
def updateQuotaUsage (st : GeminiState) (tokens : Nat) (now : Int) : GeminiState :=
  saveDailyStats { st with
    dailyCallCount := st.dailyCallCount + 1
    dailyTokenCount := st.dailyTokenCount + tokens
    callHistory := lastSixty (st.callHistory ++ [⟨now, tokens⟩]) }

/-- Projection returned by getQuotaStatus.  The nextReset and
rateLimitInfo fields of the source are display strings derived from
the wall clock and the fixed limits; they carry no decision logic and
are elided. -/
structure QuotaStatus where
  dailyCallCount : Nat
  dailyTokenCount : Nat
  callsRemaining : Nat
  tokensRemaining : Nat
  isQuotaExceeded : Bool
deriving Repr, DecidableEq

/-- getQuotaStatus: run the lazy rollover, then project the counters.
Math.max (0, limit - count) is truncated Nat subtraction. -/
def getQuotaStatus (st : GeminiState) (today : String) :
    QuotaStatus × GeminiState :=
  let st := resetDailyStatsIfNeeded st today
  (⟨st.dailyCallCount, st.dailyTokenCount,
    DAILY_CALL_LIMIT - st.dailyCallCount,
    DAILY_TOKEN_LIMIT - st.dailyTokenCount,
    st.isQuotaExceeded⟩, st)

/-!
JavaScript dynamic values.  loadDailyStats and the feedback validator
operate on whatever JSON.parse produced, with JS truthiness and
field-access semantics, so a small dynamic value type is needed.
JSON numbers appearing in this application (counts, tokens, scores)
are modelled as Int.
-/

/-- A JavaScript value as far as the governor and the feedback
validator can observe one. -/
inductive Js where
  | undefined : Js
  | null : Js
  | bool : Bool → Js
  | num : Int → Js
  | str : String → Js
  | arr : List Js → Js
  | obj : List (String × Js) → Js
deriving Repr

/-- JS truthiness: undefined, null, false, 0 and the empty string are
falsy; every other value (objects and arrays included) is truthy. -/
def Js.truthy : Js → Bool
  | .undefined => false
  | .null => false
  | .bool b => b
  | .num n => n ≠ 0
  | .str s => s ≠ ""
  | .arr _ => true
  | .obj _ => true

/-- Property access v.f.  On null or undefined the access throws a
TypeError (none); on an object it yields the field or undefined; on
any other primitive it yields undefined. -/
def Js.getField : Js → String → Option Js
  | .undefined, _ => none
  | .null, _ => none
  | .obj fields, f => some ((fields.lookup f).getD .undefined)
  | _, _ => some .undefined

/-- The JS expression a or-else b (written with two vertical bars):
a when a is truthy, b otherwise. -/
def jsOr (a b : Js) : Js := if a.truthy then a else b

/-- Number (v): the JS numeric coercion, with none standing for NaN.
Strings coerce through decimal parsing (empty string to 0); an empty
array to 0, a singleton array through its element, larger arrays and
objects to NaN. -/
def jsToNumber : Js → Option Int
  | .undefined => none
  | .null => some 0
  | .bool b => some (if b then 1 else 0)
  | .num n => some n
  | .str s => if s = "" then some 0 else s.toInt?
  | .arr [] => some 0
  | .arr [x] =>
      match x with
      | .undefined => none
      | .null => some 0
      | .bool _ => none
      | .num n => some n
      | .str s => if s = "" then some 0 else s.toInt?
      | .arr _ => none
      | .obj _ => none
  | .arr _ => none
  | .obj _ => none

/-- The Feedback record returned by analyzeFeedback. -/
structure Feedback where
  score : Int
  strengths : List Js
  improvements : List Js
  fallaciesDetected : List Js
  suggestions : List Js
deriving Repr

/-- Number (feedback.score) with NaN collapsed by the or-else-0
in the source: Math.max (0, Math.min (100, Number (s) or-else 0)). -/
def scoreOf (v : Js) : Int :=
  let n := match jsToNumber v with
           | some n => n
           | none => 0
  max 0 (min 100 n)

/-- v when it is an array, the empty list otherwise; the first three
entries only when sliced. -/
def arrOrEmpty (v : Js) : List Js :=
  match v with
  | .arr l => l
  | _ => []

/-- The validation block of analyzeFeedback applied to the parsed JSON
value.  Field access on a parsed null throws (caught by the
parse-error handler), hence the Option.  strengths, improvements and
suggestions are sliced to 3 entries; fallaciesDetected is not. -/
def validateFeedback (j : Js) : Option Feedback :=
  match j.getField "score", j.getField "strengths", j.getField "improvements",
        j.getField "fallaciesDetected", j.getField "suggestions" with
  | some s, some st, some im, some fa, some su =>
      some ⟨scoreOf s, (arrOrEmpty st).take 3, (arrOrEmpty im).take 3,
            arrOrEmpty fa, (arrOrEmpty su).take 3⟩
  | _, _, _, _, _ => none

/-- JS String.prototype.trim: strip leading and trailing whitespace.
Defined over the character list so that it evaluates by reduction. -/
def jsTrim (s : String) : String :=
  ⟨((s.data.dropWhile Char.isWhitespace).reverse.dropWhile Char.isWhitespace).reverse⟩

/-!
The two gated service entry points.  Both check isConfigured, then
checkQuotaLimits, and only then reach the provider; a denial throws
the quota reason before the try block, so the provider is never
invoked and no usage is recorded on a denied attempt.  The provider
outcome is an Except argument; the Bool in the result records whether
model.generateContent was reached.  The catch-block rewording of
provider error messages and the regex scrub of call IDs from a
successful response touch no claimed behaviour and are elided (the
error text is passed through, the response text is trimmed).
-/

/-- generateDebateResponse reduced to its control flow over the quota
state: configuration gate, quota gate, provider call, empty-response
check, token estimate Math.ceil ((promptLen + textLen) / 4) and
updateQuotaUsage on success. -/
def generateDebateResponse (st : GeminiState) (configured : Bool)
    (today : String) (now : Int) (promptLen : Nat)
    (provider : Except String String) :
    Except String String × GeminiState × Bool :=
  if ¬ configured then
    (.error "AI API not configured. Please add your API key to enable AI responses.",
     st, false)
  else
    let (check, st1) := checkQuotaLimits st today now
    if check.canMakeCall = false then
      (.error (check.reason.getD ""), st1, false)
    else
      match provider with
      | .error msg => (.error msg, st1, true)
      | .ok text =>
          if (jsTrim text).length = 0 then
            (.error "Empty response from AI API", st1, true)
          else
            let estimatedTokens := (promptLen + text.length + 3) / 4
            (.ok (jsTrim text), updateQuotaUsage st1 estimatedTokens now, true)

/-- analyzeFeedback reduced to its control flow over the quota state:
configuration gate, quota gate, provider call, token estimate on the
trimmed text and updateQuotaUsage (recorded before parsing), then
JSON extraction and validation.  parse models JSON.parse on the
response text (none when it throws). -/
def analyzeFeedback (st : GeminiState) (configured : Bool)
    (today : String) (now : Int) (promptLen : Nat)
    (provider : Except String String) (parse : String → Option Js) :
    Except String Feedback × GeminiState × Bool :=
  if ¬ configured then
    (.error "AI API not configured. Please add your API key to enable AI feedback analysis.",
     st, false)
  else
    let (check, st1) := checkQuotaLimits st today now
    if check.canMakeCall = false then
      (.error (check.reason.getD ""), st1, false)
    else
      match provider with
      | .error msg => (.error msg, st1, true)
      | .ok rawText =>
          let text := jsTrim rawText
          let estimatedTokens := (promptLen + text.length + 3) / 4
          let st2 := updateQuotaUsage st1 estimatedTokens now
          match parse text with
          | none =>
              (.error "Failed to parse feedback from AI API. Please try again.", st2, true)
          | some j =>
              match validateFeedback j with
              | none =>
                  (.error "Failed to parse feedback from AI API. Please try again.", st2, true)
              | some fb => (.ok fb, st2, true)

/-!
loadDailyStats.  The class fields are dynamically typed in JS, so the
raw result of loading is a record of Js values; the field initialisers
of the class give the pre-load values 0, 0, today, false.  The stored
input is, from the outside in: none when the key is absent,
some none when the stored string does not parse as JSON (JSON.parse
throws, caught by the catch), and some (some j) when it parses to j.
When j is null every property access throws before any field is
assigned, so the caught TypeError leaves the initial values.
-/

/-- The four governor fields as raw JS values immediately after
loadDailyStats ran. -/
structure RawStats where
  dailyCallCount : Js
  dailyTokenCount : Js
  lastResetDate : Js
  isQuotaExceeded : Js
deriving Repr

/-- The class field initialisers: zeroed counters, the current date
string, exceeded flag false. -/
def initialRawStats (today : String) : RawStats :=
  ⟨.num 0, .num 0, .str today, .bool false⟩

/-- loadDailyStats over the persisted value. -/
def loadDailyStats (today : String) (storedValue : Option (Option Js)) : RawStats :=
  match storedValue with
  | none => initialRawStats today
  | some none => initialRawStats today
  | some (some j) =>
      match j.getField "callCount", j.getField "tokenCount",
            j.getField "lastResetDate", j.getField "isQuotaExceeded" with
      | some c, some t, some d, some e =>
          ⟨jsOr c (.num 0), jsOr t (.num 0),
           jsOr d (.str today), jsOr e (.bool false)⟩
      | _, _, _, _ => initialRawStats today

/-!
The turn state machine of the PracticeDebate component.  React state
is a record; each handler is a function from the record (plus the
externally determined outcomes of awaited calls) to the record.
sendMessage awaits analyzeFeedback and then schedules
generateAIResponse through setTimeout, so the dispatch of the
opponent request is a separate transition; the Bool paired with the
sendMessage result records whether that dispatch was scheduled.
Display-only state (topic text, speech recognition, webcam metrics,
timer seconds, the aggregate final feedback and XP computed by
endDebate for the results screen) carries no claimed behaviour and is
elided; the timer effect and the stop button both invoke endDebate.
-/

/-- Who produced a transcript entry. -/
inductive Speaker where
  | user : Speaker
  | ai : Speaker
deriving Repr, DecidableEq

/-- One transcript entry.  The id field of the source equals the
string of the timestamp and is elided. -/
structure DebateMessage where
  speaker : Speaker
  content : String
  timestamp : Int
  feedback : Feedback
deriving Repr

/-- The claim-relevant React state of PracticeDebate. -/
structure ConvState where
  messages : List DebateMessage
  currentMessage : String
  argumentCount : Nat
  userTurn : Bool
  debateEnded : Bool
  isAiThinking : Bool
  apiError : Option String
deriving Repr

/-- The placeholder feedback attached to the user message when
analyzeFeedback failed. -/
def analyzeFailFeedback : Feedback :=
  ⟨0, [], [], [], [Js.str "Unable to analyze - please check your Gemini API key"]⟩

/-- The canned feedback attached to every AI message;
Math.floor (Math.random () * 10) + 90 is rand % 10 + 90 for the
sampled rand. -/
def aiCannedFeedback (rand : Nat) : Feedback :=
  ⟨Int.ofNat (rand % 10) + 90,
   [Js.str "Well-structured argument", Js.str "Strong evidence", Js.str "Clear reasoning"],
   [Js.str "Could expand on examples"], [],
   [Js.str "Continue with strong rebuttals"]⟩

/-- The feedback attached to the AI-slot error entry when
generateDebateResponse failed. -/
def aiErrorFeedback : Feedback :=
  ⟨0, [], [], [], [Js.str "Please check your Gemini API key and try again"]⟩

/-- sendMessage.  Guard: return immediately when the trimmed input is
empty or it is not the turn of the human.  Otherwise clear the error,
leave the human turn, count the submission, and await analyzeFeedback
(outcome passed in): on success append the user entry with its
feedback, clear the input and schedule generateAIResponse (true); on
failure surface the error, append the user entry with placeholder
feedback, clear the input and hand the turn back (false). -/
def sendMessage (st : ConvState) (now : Int)
    (feedbackResult : Except String Feedback) : ConvState × Bool :=
  if jsTrim st.currentMessage = "" ∨ st.userTurn = false then (st, false)
  else
    let st1 := { st with userTurn := false, apiError := none,
                         argumentCount := st.argumentCount + 1 }
    match feedbackResult with
    | .ok fb =>
        ({ st1 with
            messages := st1.messages ++ [⟨.user, st.currentMessage, now, fb⟩]
            currentMessage := "" }, true)
    | .error msg =>
        ({ st1 with
            apiError := some msg
            messages := st1.messages ++ [⟨.user, st.currentMessage, now, analyzeFailFeedback⟩]
            currentMessage := ""
            userTurn := true }, false)

/-- generateAIResponse.  Mark the AI as thinking and clear the error;
on a successful provider outcome append the AI entry with canned
feedback and hand the turn to the human; on failure surface the error
and append the visibly marked AI-slot error entry, also handing the
turn back.  Either way the thinking flag ends false. -/
def generateAIResponse (st : ConvState) (now : Int) (rand : Nat)
    (response : Except String String) : ConvState :=
  let st1 := { st with isAiThinking := true, apiError := none }
  match response with
  | .ok text =>
      { st1 with
          messages := st1.messages ++ [⟨.ai, text, now, aiCannedFeedback rand⟩]
          userTurn := true
          isAiThinking := false }
  | .error msg =>
      { st1 with
          apiError := some msg
          userTurn := true
          messages := st1.messages ++
            [⟨.ai, "⚠️ AI Response Error: " ++ msg, now, aiErrorFeedback⟩]
          isAiThinking := false }

/-- endDebate: transition to Ended.  The aggregate feedback (mean of
the user-entry scores, 75 when there are none) and the XP award it
feeds to onComplete are results-screen values computed here and
touched by no claim; they are elided. -/
def endDebate (st : ConvState) : ConvState :=
  { st with debateEnded := true, userTurn := false }

/-- A freshly constructed governor state: zero counters, the current
date, empty history, nothing persisted yet. -/
def zeroQuotaState (today : String) : GeminiState :=
  ⟨0, 0, today, [], false, none⟩

/-- recordUsage applied over a whole sequence of (timestamp, tokens)
calls, left to right. -/
def applyUsages (st : GeminiState) (us : List (Int × Nat)) : GeminiState :=
  us.foldl (fun s p => updateQuotaUsage s p.2 p.1) st

/-- The most recent n entries of a list. -/
def lastN (n : Nat) (l : List CallRecord) : List CallRecord :=
  l.drop (l.length - n)

/-- Is the value an array. -/
def Js.isArr : Js → Bool
  | .arr _ => true
  | _ => false

/-!
Helper lemmas about the governor.
-/

lemma reset_same (st : GeminiState) (today : String)
    (h : st.lastResetDate = today) :
    resetDailyStatsIfNeeded st today = st := by
  simp [resetDailyStatsIfNeeded, h]

lemma reset_callHistory (st : GeminiState) (today : String) :
    (resetDailyStatsIfNeeded st today).callHistory = st.callHistory := by
  unfold resetDailyStatsIfNeeded saveDailyStats
  split <;> rfl

lemma reset_date (st : GeminiState) (today : String) :
    (resetDailyStatsIfNeeded st today).lastResetDate = today := by
  unfold resetDailyStatsIfNeeded saveDailyStats
  split <;> simp_all

lemma reset_diff (st : GeminiState) (today : String)
    (h : st.lastResetDate ≠ today) :
    (resetDailyStatsIfNeeded st today).dailyCallCount = 0 ∧
    (resetDailyStatsIfNeeded st today).dailyTokenCount = 0 ∧
    (resetDailyStatsIfNeeded st today).isQuotaExceeded = false := by
  simp [resetDailyStatsIfNeeded, h, saveDailyStats]

lemma update_lastResetDate (st : GeminiState) (tokens : Nat) (now : Int) :
    (updateQuotaUsage st tokens now).lastResetDate = st.lastResetDate := rfl

lemma check_deny_call (st : GeminiState) (today : String) (now : Int)
    (hd : st.lastResetDate = today) (hc : st.dailyCallCount ≥ 50) :
    checkQuotaLimits st today now =
      (⟨false, some dailyCallLimitReason, none⟩,
       saveDailyStats { st with isQuotaExceeded := true }) := by
  simp [checkQuotaLimits, reset_same st today hd, DAILY_CALL_LIMIT, hc]

lemma check_allow (st : GeminiState) (today : String) (now : Int)
    (hd : st.lastResetDate = today)
    (hc : st.dailyCallCount < 50) (ht : st.dailyTokenCount < 15000)
    (hw : st.callHistory.filter (fun c => c.timestamp > now - 60000) = []) :
    checkQuotaLimits st today now = (⟨true, none, none⟩, st) := by
  simp [checkQuotaLimits, reset_same st today hd, DAILY_CALL_LIMIT,
        DAILY_TOKEN_LIMIT, CALLS_PER_MINUTE, Nat.not_le.mpr hc,
        Nat.not_le.mpr ht, hw]

set_option maxRecDepth 8000 in
/-- C1: whenever dailyCallCount has reached DAILY_CALL_LIMIT = 50 and
the calendar date has not advanced past lastResetDate,
checkQuotaLimits denies with the daily-call-limit reason, sets
isQuotaExceeded and persists it; concretely, from dailyCallCount = 49
a check allows, updateQuotaUsage 100 brings the count to 50, and a
second check denies with isQuotaExceeded = true. -/
theorem checkQuotaLimits_daily_call_limit
    (st st49 : GeminiState) (today : String) (now now2 : Int)
    (hdate : st.lastResetDate = today) (hcount : st.dailyCallCount ≥ 50)
    (hdate49 : st49.lastResetDate = today) (hc49 : st49.dailyCallCount = 49)
    (ht49 : st49.dailyTokenCount < 15000)
    (hw49 : st49.callHistory.filter (fun c => c.timestamp > now - 60000) = []) :
    (checkQuotaLimits st today now).1.canMakeCall = false ∧
    (checkQuotaLimits st today now).1.reason = some dailyCallLimitReason ∧
    dailyCallLimitReason.toList.take 16 = "Daily call limit".toList ∧
    (checkQuotaLimits st today now).2.isQuotaExceeded = true ∧
    (checkQuotaLimits st today now).2.stored =
      some ⟨st.dailyCallCount, st.dailyTokenCount, today, true⟩ ∧
    (checkQuotaLimits st49 today now).1.canMakeCall = true ∧
    (updateQuotaUsage st49 100 now).dailyCallCount = 50 ∧
    (checkQuotaLimits (updateQuotaUsage st49 100 now) today now2).1.canMakeCall = false ∧
    (checkQuotaLimits (updateQuotaUsage st49 100 now) today now2).1.reason =
      some dailyCallLimitReason ∧
    (checkQuotaLimits (updateQuotaUsage st49 100 now) today now2).2.isQuotaExceeded = true := by
  have h1 := check_deny_call st today now hdate hcount
  have h2 := check_allow st49 today now hdate49 (by omega) ht49 hw49
  have h3 : (updateQuotaUsage st49 100 now).dailyCallCount = 50 := by
    simp [updateQuotaUsage, saveDailyStats, hc49]
  have h4 := check_deny_call (updateQuotaUsage st49 100 now) today now2
    (by rw [update_lastResetDate]; exact hdate49) (by omega)
  refine ⟨?_, ?_, by decide, ?_, ?_, ?_, h3, ?_, ?_, ?_⟩ <;>
    simp [h1, h2, h4, saveDailyStats, hdate]

/-- Witness for C1 at concrete states. -/
theorem checkQuotaLimits_daily_call_limit_witness :
    (checkQuotaLimits ⟨50, 0, "Sat Oct 11 2025", [], false, none⟩
        "Sat Oct 11 2025" 0).1.canMakeCall = false ∧
    (checkQuotaLimits ⟨50, 0, "Sat Oct 11 2025", [], false, none⟩
        "Sat Oct 11 2025" 0).1.reason = some dailyCallLimitReason ∧
    dailyCallLimitReason.toList.take 16 = "Daily call limit".toList ∧
    (checkQuotaLimits ⟨50, 0, "Sat Oct 11 2025", [], false, none⟩
        "Sat Oct 11 2025" 0).2.isQuotaExceeded = true ∧
    (checkQuotaLimits ⟨50, 0, "Sat Oct 11 2025", [], false, none⟩
        "Sat Oct 11 2025" 0).2.stored = some ⟨50, 0, "Sat Oct 11 2025", true⟩ ∧
    (checkQuotaLimits ⟨49, 0, "Sat Oct 11 2025", [], false, none⟩
        "Sat Oct 11 2025" 0).1.canMakeCall = true ∧
    (updateQuotaUsage ⟨49, 0, "Sat Oct 11 2025", [], false, none⟩ 100 0).dailyCallCount = 50 ∧
    (checkQuotaLimits (updateQuotaUsage ⟨49, 0, "Sat Oct 11 2025", [], false, none⟩ 100 0)
        "Sat Oct 11 2025" 1000).1.canMakeCall = false ∧
    (checkQuotaLimits (updateQuotaUsage ⟨49, 0, "Sat Oct 11 2025", [], false, none⟩ 100 0)
        "Sat Oct 11 2025" 1000).1.reason = some dailyCallLimitReason ∧
    (checkQuotaLimits (updateQuotaUsage ⟨49, 0, "Sat Oct 11 2025", [], false, none⟩ 100 0)
        "Sat Oct 11 2025" 1000).2.isQuotaExceeded = true :=
  checkQuotaLimits_daily_call_limit
    ⟨50, 0, "Sat Oct 11 2025", [], false, none⟩
    ⟨49, 0, "Sat Oct 11 2025", [], false, none⟩
    "Sat Oct 11 2025" 0 1000 rfl (by decide) rfl rfl (by decide) rfl

lemma check_state_after_rollover (st : GeminiState) (today : String) (now : Int)
    (h : st.lastResetDate ≠ today) :
    (checkQuotaLimits st today now).2 = resetDailyStatsIfNeeded st today := by
  obtain ⟨h1, h2, _⟩ := reset_diff st today h
  unfold checkQuotaLimits
  simp [h1, h2, DAILY_CALL_LIMIT, DAILY_TOKEN_LIMIT]
  split <;> rfl

/-- C2: on every governor operation (checkQuotaLimits or
getQuotaStatus) performed when the current date differs from
lastResetDate, the daily counters reset to 0 and isQuotaExceeded to
false, lastResetDate is stamped with the current date so the reset
happens exactly once, and a check on the later date reports
canMakeCall = true provided the per-minute window is clear. -/
theorem governor_lazy_daily_rollover (st : GeminiState) (today : String) (now : Int)
    (hdate : st.lastResetDate ≠ today) :
    (checkQuotaLimits st today now).2.dailyCallCount = 0 ∧
    (checkQuotaLimits st today now).2.dailyTokenCount = 0 ∧
    (checkQuotaLimits st today now).2.isQuotaExceeded = false ∧
    (checkQuotaLimits st today now).2.lastResetDate = today ∧
    (getQuotaStatus st today).2.dailyCallCount = 0 ∧
    (getQuotaStatus st today).2.dailyTokenCount = 0 ∧
    (getQuotaStatus st today).2.isQuotaExceeded = false ∧
    (getQuotaStatus st today).2.lastResetDate = today ∧
    (∀ st2 : GeminiState, st2.lastResetDate = today →
      resetDailyStatsIfNeeded st2 today = st2) ∧
    resetDailyStatsIfNeeded (resetDailyStatsIfNeeded st today) today =
      resetDailyStatsIfNeeded st today ∧
    (st.callHistory.filter (fun c => c.timestamp > now - 60000) = [] →
      (checkQuotaLimits st today now).1.canMakeCall = true) := by
  obtain ⟨h1, h2, h3⟩ := reset_diff st today hdate
  have hd := reset_date st today
  have hst := check_state_after_rollover st today now hdate
  refine ⟨?_, ?_, ?_, ?_, h1, h2, h3, hd, fun st2 h => reset_same st2 today h,
          reset_same _ today hd, ?_⟩
  · rw [hst]; exact h1
  · rw [hst]; exact h2
  · rw [hst]; exact h3
  · rw [hst]; exact hd
  · intro hw
    unfold checkQuotaLimits
    simp [h1, h2, DAILY_CALL_LIMIT, DAILY_TOKEN_LIMIT, CALLS_PER_MINUTE,
          reset_callHistory, hw]

/-- Witness for C2 at a concrete state crossing midnight. -/
theorem governor_lazy_daily_rollover_witness :
    (checkQuotaLimits ⟨5, 400, "Fri Oct 10 2025", [], true, none⟩
        "Sat Oct 11 2025" 0).2.dailyCallCount = 0 ∧
    (checkQuotaLimits ⟨5, 400, "Fri Oct 10 2025", [], true, none⟩
        "Sat Oct 11 2025" 0).2.dailyTokenCount = 0 ∧
    (checkQuotaLimits ⟨5, 400, "Fri Oct 10 2025", [], true, none⟩
        "Sat Oct 11 2025" 0).2.isQuotaExceeded = false ∧
    (checkQuotaLimits ⟨5, 400, "Fri Oct 10 2025", [], true, none⟩
        "Sat Oct 11 2025" 0).2.lastResetDate = "Sat Oct 11 2025" ∧
    (getQuotaStatus ⟨5, 400, "Fri Oct 10 2025", [], true, none⟩
        "Sat Oct 11 2025").2.dailyCallCount = 0 ∧
    (getQuotaStatus ⟨5, 400, "Fri Oct 10 2025", [], true, none⟩
        "Sat Oct 11 2025").2.dailyTokenCount = 0 ∧
    (getQuotaStatus ⟨5, 400, "Fri Oct 10 2025", [], true, none⟩
        "Sat Oct 11 2025").2.isQuotaExceeded = false ∧
    (getQuotaStatus ⟨5, 400, "Fri Oct 10 2025", [], true, none⟩
        "Sat Oct 11 2025").2.lastResetDate = "Sat Oct 11 2025" ∧
    (∀ st2 : GeminiState, st2.lastResetDate = "Sat Oct 11 2025" →
      resetDailyStatsIfNeeded st2 "Sat Oct 11 2025" = st2) ∧
    resetDailyStatsIfNeeded
        (resetDailyStatsIfNeeded ⟨5, 400, "Fri Oct 10 2025", [], true, none⟩
          "Sat Oct 11 2025") "Sat Oct 11 2025" =
      resetDailyStatsIfNeeded ⟨5, 400, "Fri Oct 10 2025", [], true, none⟩
        "Sat Oct 11 2025" ∧
    ((⟨5, 400, "Fri Oct 10 2025", [], true, none⟩ :
        GeminiState).callHistory.filter (fun c => c.timestamp > 0 - 60000) = [] →
      (checkQuotaLimits ⟨5, 400, "Fri Oct 10 2025", [], true, none⟩
        "Sat Oct 11 2025" 0).1.canMakeCall = true) :=
  governor_lazy_daily_rollover ⟨5, 400, "Fri Oct 10 2025", [], true, none⟩
    "Sat Oct 11 2025" 0 (by decide)

lemma check_callHistory (st : GeminiState) (today : String) (now : Int) :
    (checkQuotaLimits st today now).2.callHistory = st.callHistory := by
  simp only [checkQuotaLimits]
  split
  · simp [saveDailyStats, reset_callHistory]
  · split
    · simp [saveDailyStats, reset_callHistory]
    · split <;> simp [reset_callHistory]

lemma check_counters_same_day (st : GeminiState) (today : String) (now : Int)
    (hd : st.lastResetDate = today) :
    (checkQuotaLimits st today now).2.dailyCallCount = st.dailyCallCount ∧
    (checkQuotaLimits st today now).2.dailyTokenCount = st.dailyTokenCount := by
  simp only [checkQuotaLimits, reset_same st today hd]
  split
  · simp [saveDailyStats]
  · split
    · simp [saveDailyStats]
    · split <;> simp

lemma check_reason_of_denied (st : GeminiState) (today : String) (now : Int)
    (h : (checkQuotaLimits st today now).1.canMakeCall = false) :
    (checkQuotaLimits st today now).1.reason ≠ none := by
  simp only [checkQuotaLimits] at h ⊢
  split
  · simp
  · split
    · simp
    · split
      · simp
      · simp_all

lemma generateDebateResponse_denied (st : GeminiState) (today : String)
    (now : Int) (plen : Nat) (provider : Except String String)
    (hdeny : (checkQuotaLimits st today now).1.canMakeCall = false) :
    generateDebateResponse st true today now plen provider =
      (.error ((checkQuotaLimits st today now).1.reason.getD ""),
       (checkQuotaLimits st today now).2, false) := by
  rcases hq : checkQuotaLimits st today now with ⟨chk, stq⟩
  rw [hq] at hdeny
  unfold generateDebateResponse
  rw [hq]
  simp [hdeny]
  intro hc
  simp [hc] at hdeny

lemma analyzeFeedback_denied (st : GeminiState) (today : String)
    (now : Int) (plen : Nat) (provider : Except String String)
    (parse : String → Option Js)
    (hdeny : (checkQuotaLimits st today now).1.canMakeCall = false) :
    analyzeFeedback st true today now plen provider parse =
      (.error ((checkQuotaLimits st today now).1.reason.getD ""),
       (checkQuotaLimits st today now).2, false) := by
  rcases hq : checkQuotaLimits st today now with ⟨chk, stq⟩
  rw [hq] at hdeny
  unfold analyzeFeedback
  rw [hq]
  simp [hdeny]
  intro hc
  simp [hc] at hdeny

/-- A state carrying stale counters from the previous day together
with a rate-limiting call recorded just before midnight. -/
def staleState : GeminiState :=
  ⟨5, 100, "Fri Oct 10 2025", [⟨20000, 10⟩], false, none⟩

/-- Counterexample for C3: on the morning after, the check denies
(rate limit) while the lazy rollover inside the very same denied
attempt zeroes dailyCallCount from 5 to 0, so the counters are not
unchanged by a denied attempt. -/
theorem quota_denied_counters_counterexample :
    (checkQuotaLimits staleState "Sat Oct 11 2025" 70000).1.canMakeCall = false ∧
    (generateDebateResponse staleState true "Sat Oct 11 2025" 70000 100
        (.ok "hello")).2.2 = false ∧
    (generateDebateResponse staleState true "Sat Oct 11 2025" 70000 100
        (.ok "hello")).2.1.dailyCallCount = 0 ∧
    staleState.dailyCallCount = 5 := by decide

/-- C3 (amended): checkQuotaLimits always returns a structured result
(a denial carries a reason), and whenever it denies,
generateDebateResponse and analyzeFeedback raise an error without
invoking the provider and without recording usage: callHistory is
unchanged, and on the same calendar day the daily counters are
unchanged as well (on a date change the lazy rollover inside the
check zeroes them). -/
theorem quota_denied_blocks_provider
    (st : GeminiState) (today : String) (now : Int) (plen : Nat)
    (provider fprovider : Except String String) (parse : String → Option Js)
    (hdeny : (checkQuotaLimits st today now).1.canMakeCall = false) :
    (checkQuotaLimits st today now).1.reason ≠ none ∧
    (∃ e, (generateDebateResponse st true today now plen provider).1 = .error e) ∧
    (generateDebateResponse st true today now plen provider).2.2 = false ∧
    (generateDebateResponse st true today now plen provider).2.1.callHistory =
      st.callHistory ∧
    (st.lastResetDate = today →
      (generateDebateResponse st true today now plen provider).2.1.dailyCallCount =
        st.dailyCallCount ∧
      (generateDebateResponse st true today now plen provider).2.1.dailyTokenCount =
        st.dailyTokenCount) ∧
    (∃ e, (analyzeFeedback st true today now plen fprovider parse).1 = .error e) ∧
    (analyzeFeedback st true today now plen fprovider parse).2.2 = false ∧
    (analyzeFeedback st true today now plen fprovider parse).2.1.callHistory =
      st.callHistory ∧
    (st.lastResetDate = today →
      (analyzeFeedback st true today now plen fprovider parse).2.1.dailyCallCount =
        st.dailyCallCount ∧
      (analyzeFeedback st true today now plen fprovider parse).2.1.dailyTokenCount =
        st.dailyTokenCount) := by
  have hg := generateDebateResponse_denied st today now plen provider hdeny
  have ha := analyzeFeedback_denied st today now plen fprovider parse hdeny
  refine ⟨check_reason_of_denied st today now hdeny,
          ⟨_, by rw [hg]⟩, by rw [hg], ?_, ?_, ⟨_, by rw [ha]⟩, by rw [ha], ?_, ?_⟩
  · rw [hg]; exact check_callHistory st today now
  · intro hd; rw [hg]; exact check_counters_same_day st today now hd
  · rw [ha]; exact check_callHistory st today now
  · intro hd; rw [ha]; exact check_counters_same_day st today now hd

/-- Same-day saturated state used as the C3 witness input. -/
def saturatedState : GeminiState :=
  ⟨50, 0, "Sat Oct 11 2025", [], false, none⟩

/-- Witness for C3 at a same-day call-limit denial. -/
theorem quota_denied_blocks_provider_witness :
    (checkQuotaLimits saturatedState "Sat Oct 11 2025" 0).1.reason ≠ none ∧
    (∃ e, (generateDebateResponse saturatedState true "Sat Oct 11 2025" 0 10
        (.ok "x")).1 = .error e) ∧
    (generateDebateResponse saturatedState true "Sat Oct 11 2025" 0 10
        (.ok "x")).2.2 = false ∧
    (generateDebateResponse saturatedState true "Sat Oct 11 2025" 0 10
        (.ok "x")).2.1.callHistory = saturatedState.callHistory ∧
    (saturatedState.lastResetDate = "Sat Oct 11 2025" →
      (generateDebateResponse saturatedState true "Sat Oct 11 2025" 0 10
          (.ok "x")).2.1.dailyCallCount = saturatedState.dailyCallCount ∧
      (generateDebateResponse saturatedState true "Sat Oct 11 2025" 0 10
          (.ok "x")).2.1.dailyTokenCount = saturatedState.dailyTokenCount) ∧
    (∃ e, (analyzeFeedback saturatedState true "Sat Oct 11 2025" 0 10
        (.ok "y") (fun _ => none)).1 = .error e) ∧
    (analyzeFeedback saturatedState true "Sat Oct 11 2025" 0 10
        (.ok "y") (fun _ => none)).2.2 = false ∧
    (analyzeFeedback saturatedState true "Sat Oct 11 2025" 0 10
        (.ok "y") (fun _ => none)).2.1.callHistory = saturatedState.callHistory ∧
    (saturatedState.lastResetDate = "Sat Oct 11 2025" →
      (analyzeFeedback saturatedState true "Sat Oct 11 2025" 0 10
          (.ok "y") (fun _ => none)).2.1.dailyCallCount = saturatedState.dailyCallCount ∧
      (analyzeFeedback saturatedState true "Sat Oct 11 2025" 0 10
          (.ok "y") (fun _ => none)).2.1.dailyTokenCount = saturatedState.dailyTokenCount) :=
  quota_denied_blocks_provider saturatedState "Sat Oct 11 2025" 0 10
    (.ok "x") (.ok "y") (fun _ => none) (by decide)

lemma ceilSeconds_pos (m : Int) (h : 1 ≤ m) : 0 < ceilSeconds m := by
  unfold ceilSeconds
  omega

lemma filter_lastSixty_single (h : List CallRecord) (x : CallRecord)
    (p : CallRecord → Bool)
    (hh : ∀ c ∈ h, p c = false) (hx : p x = true) :
    (lastSixty (h ++ [x])).filter p = [x] := by
  have hdropfilter : ∀ k : Nat, (h.drop k).filter p = [] := fun k =>
    List.filter_eq_nil_iff.mpr fun a ha => by
      simp [hh a (List.mem_of_mem_drop ha)]
  have hnil : h.filter p = [] :=
    List.filter_eq_nil_iff.mpr fun a ha => by simp [hh a ha]
  unfold lastSixty
  split
  · rename_i hlong
    have hk : (h ++ [x]).length - 60 ≤ h.length := by
      simp only [List.length_append, List.length_cons, List.length_nil] at hlong ⊢
      omega
    rw [List.drop_append_of_le_length hk, List.filter_append, hdropfilter]
    simp [hx]
  · rw [List.filter_append, hnil]
    simp [hx]

lemma check_rate_deny (st : GeminiState) (today : String) (now : Int)
    (r : List CallRecord)
    (hd : st.lastResetDate = today) (hc : st.dailyCallCount < 50)
    (ht : st.dailyTokenCount < 15000)
    (hf : st.callHistory.filter (fun c => c.timestamp > now - 60000) = r)
    (hr : 1 ≤ r.length) :
    checkQuotaLimits st today now =
      (⟨false,
        some (rateLimitReason (ceilSeconds (oldestTimestamp r + 60000 - now))),
        some (ceilSeconds (oldestTimestamp r + 60000 - now))⟩, st) := by
  simp only [checkQuotaLimits, reset_same st today hd, DAILY_CALL_LIMIT,
             DAILY_TOKEN_LIMIT, CALLS_PER_MINUTE, hf]
  rw [if_neg (by omega), if_neg (by omega), if_pos (by simpa using hr)]

/-- A freshly reset state on the current date. -/
def freshState : GeminiState := ⟨0, 0, "Sat Oct 11 2025", [], false, none⟩

/-- Counterexample for C4: two bare checkQuotaLimits calls 1000 ms
apart both return canMakeCall = true, because a check by itself does
not record a call into the per-minute window; the claim that the
second of any two checks in one window is denied is false. -/
theorem rate_limit_two_bare_checks_counterexample :
    (checkQuotaLimits freshState "Sat Oct 11 2025" 0).1.canMakeCall = true ∧
    (checkQuotaLimits (checkQuotaLimits freshState "Sat Oct 11 2025" 0).2
        "Sat Oct 11 2025" 1000).1.canMakeCall = true ∧
    (checkQuotaLimits (checkQuotaLimits freshState "Sat Oct 11 2025" 0).2
        "Sat Oct 11 2025" 1000).1.waitTime = none := by decide

/-- C4 (amended): with CALLS_PER_MINUTE = 1 and daily limits unmet, a
check is allowed while the window is clear; once usage of the allowed
call is recorded by updateQuotaUsage, a second check within 60
seconds of the recorded call denies with waitTime equal to the
ceiling of the seconds until that call exits the window, and that
waitTime is positive.  Bare checks do not consume the window. -/
theorem rate_limit_after_recorded_call
    (st : GeminiState) (today : String) (now0 now1 : Int) (tk : Nat)
    (hdate : st.lastResetDate = today)
    (hc : st.dailyCallCount + 1 < DAILY_CALL_LIMIT)
    (ht : st.dailyTokenCount + tk < DAILY_TOKEN_LIMIT)
    (hwin : st.callHistory.filter (fun c => c.timestamp > now0 - 60000) = [])
    (h01 : now0 ≤ now1) (hwithin : now1 < now0 + 60000) :
    (checkQuotaLimits st today now0).1.canMakeCall = true ∧
    (checkQuotaLimits (updateQuotaUsage st tk now0) today now1).1.canMakeCall = false ∧
    (checkQuotaLimits (updateQuotaUsage st tk now0) today now1).1.waitTime =
      some (ceilSeconds (now0 + 60000 - now1)) ∧
    0 < ceilSeconds (now0 + 60000 - now1) := by
  simp only [DAILY_CALL_LIMIT, DAILY_TOKEN_LIMIT] at hc ht
  have h1 := check_allow st today now0 hdate (by omega) (by omega) hwin
  have hall : ∀ c ∈ st.callHistory, (decide (c.timestamp > now1 - 60000)) = false := by
    intro c hcmem
    have := List.filter_eq_nil_iff.mp hwin c hcmem
    simp at this ⊢
    omega
  have hfil : (updateQuotaUsage st tk now0).callHistory.filter
      (fun c => c.timestamp > now1 - 60000) = [⟨now0, tk⟩] := by
    show (lastSixty (st.callHistory ++ [⟨now0, tk⟩])).filter
      (fun c => decide (c.timestamp > now1 - 60000)) = [⟨now0, tk⟩]
    exact filter_lastSixty_single st.callHistory ⟨now0, tk⟩ _ hall
      (by simp; omega)
  have hud : (updateQuotaUsage st tk now0).lastResetDate = today :=
    (update_lastResetDate st tk now0).trans hdate
  have h2 := check_rate_deny (updateQuotaUsage st tk now0) today now1
    [⟨now0, tk⟩] hud (by show st.dailyCallCount + 1 < 50; omega)
    (by show st.dailyTokenCount + tk < 15000; omega) hfil (by simp)
  have hold : oldestTimestamp [⟨now0, tk⟩] = now0 := rfl
  rw [hold] at h2
  exact ⟨by rw [h1], by rw [h2], by rw [h2], ceilSeconds_pos _ (by omega)⟩

/-- Witness for C4: a fresh state, a call recorded at t = 0 ms, and a
second check at t = 30000 ms. -/
theorem rate_limit_after_recorded_call_witness :
    (checkQuotaLimits freshState "Sat Oct 11 2025" 0).1.canMakeCall = true ∧
    (checkQuotaLimits (updateQuotaUsage freshState 40 0)
        "Sat Oct 11 2025" 30000).1.canMakeCall = false ∧
    (checkQuotaLimits (updateQuotaUsage freshState 40 0)
        "Sat Oct 11 2025" 30000).1.waitTime = some (ceilSeconds (0 + 60000 - 30000)) ∧
    0 < ceilSeconds (0 + 60000 - 30000) :=
  rate_limit_after_recorded_call freshState "Sat Oct 11 2025" 0 30000 40
    rfl (by decide) (by decide) rfl (by decide) (by decide)

lemma lastN_of_le (l : List CallRecord) (h : l.length ≤ 60) : lastN 60 l = l := by
  unfold lastN
  have h0 : l.length - 60 = 0 := by omega
  simp [h0]

lemma length_lastN_le (l : List CallRecord) : (lastN 60 l).length ≤ 60 := by
  unfold lastN
  rw [List.length_drop]
  omega

lemma lastSixty_lastN (l : List CallRecord) (x : CallRecord) :
    lastSixty (lastN 60 l ++ [x]) = lastN 60 (l ++ [x]) := by
  unfold lastSixty lastN
  by_cases hle : l.length ≤ 60
  · have hdrop0 : l.length - 60 = 0 := by omega
    rw [hdrop0, List.drop_zero]
    by_cases h60 : l.length = 60
    · rw [if_pos (by
        simp only [List.length_append, List.length_cons, List.length_nil]
        omega)]
    · rw [if_neg (by
        simp only [List.length_append, List.length_cons, List.length_nil]
        omega)]
      have h0 : (l ++ [x]).length - 60 = 0 := by
        simp only [List.length_append, List.length_cons, List.length_nil]
        omega
      rw [h0, List.drop_zero]
  · push_neg at hle
    have hlen : (List.drop (l.length - 60) l).length = 60 := by
      rw [List.length_drop]
      omega
    rw [if_pos (by
      simp only [List.length_append, List.length_cons, List.length_nil, hlen]
      omega)]
    rw [List.drop_append_of_le_length (by
      simp only [List.length_append, List.length_cons, List.length_nil, hlen]
      omega)]
    rw [List.drop_drop]
    rw [List.drop_append_of_le_length (by
      simp only [List.length_append, List.length_cons, List.length_nil]
      omega)]
    have hidx : ∀ a b : Nat, a = b → List.drop a l ++ [x] = List.drop b l ++ [x] :=
      fun a b hab => by rw [hab]
    apply hidx
    simp only [List.length_append, List.length_cons, List.length_nil, hlen]
    omega

lemma applyUsages_spec (us : List (Int × Nat)) :
    ∀ (st : GeminiState) (l : List CallRecord),
    st.callHistory = lastN 60 l →
    (applyUsages st us).dailyCallCount = st.dailyCallCount + us.length ∧
    (applyUsages st us).dailyTokenCount = st.dailyTokenCount + (us.map (·.2)).sum ∧
    (applyUsages st us).callHistory = lastN 60 (l ++ us.map (fun p => ⟨p.1, p.2⟩)) := by
  induction us with
  | nil =>
      intro st l h
      simp [applyUsages, h]
  | cons u us ih =>
      intro st l h
      have hstep : applyUsages st (u :: us) =
          applyUsages (updateQuotaUsage st u.2 u.1) us := rfl
      have hh : (updateQuotaUsage st u.2 u.1).callHistory =
          lastN 60 (l ++ [⟨u.1, u.2⟩]) := by
        have hc : (updateQuotaUsage st u.2 u.1).callHistory =
            lastSixty (st.callHistory ++ [⟨u.1, u.2⟩]) := rfl
        rw [hc, h, lastSixty_lastN]
      obtain ⟨h1, h2, h3⟩ := ih _ _ hh
      have huc : (updateQuotaUsage st u.2 u.1).dailyCallCount =
          st.dailyCallCount + 1 := rfl
      have hut : (updateQuotaUsage st u.2 u.1).dailyTokenCount =
          st.dailyTokenCount + u.2 := rfl
      refine ⟨?_, ?_, ?_⟩
      · rw [hstep, h1, huc]
        simp only [List.length_cons]
        omega
      · rw [hstep, h2, hut]
        simp only [List.map_cons, List.sum_cons]
        omega
      · rw [hstep, h3]
        simp

/-- C5: starting from a zeroed governor state, after any sequence of
updateQuotaUsage calls dailyCallCount equals the number of calls and
dailyTokenCount the sum of the recorded token amounts; each call
appends its (timestamp, tokens) record to callHistory, and
callHistory retains exactly the most recent 60 records (in particular
its length never exceeds 60). -/
theorem recordUsage_accumulates (today : String) (us : List (Int × Nat)) :
    (applyUsages (zeroQuotaState today) us).dailyCallCount = us.length ∧
    (applyUsages (zeroQuotaState today) us).dailyTokenCount = (us.map (·.2)).sum ∧
    (∀ (st : GeminiState) (tokens : Nat) (now : Int),
      (updateQuotaUsage st tokens now).callHistory =
        lastSixty (st.callHistory ++ [⟨now, tokens⟩])) ∧
    (applyUsages (zeroQuotaState today) us).callHistory =
      lastN 60 (us.map (fun p => ⟨p.1, p.2⟩)) ∧
    (applyUsages (zeroQuotaState today) us).callHistory.length ≤ 60 := by
  have h0 : (zeroQuotaState today).callHistory = lastN 60 [] := rfl
  obtain ⟨h1, h2, h3⟩ := applyUsages_spec us (zeroQuotaState today) [] h0
  have h3s : (applyUsages (zeroQuotaState today) us).callHistory =
      lastN 60 (us.map (fun p => ⟨p.1, p.2⟩)) := by simpa using h3
  refine ⟨by simpa [zeroQuotaState] using h1, by simpa [zeroQuotaState] using h2,
          fun st tk now => rfl, h3s, ?_⟩
  rw [h3s]
  exact length_lastN_le _

/-- C6: a sendMessage call whose input is empty after trimming, or
made when it is not the turn of the human (userTurn = false, i.e. a
request is pending or the debate has ended), is a no-op: the state is
returned unchanged and no AI request is scheduled, so a second
dispatch while a request is in flight is impossible. -/
theorem sendMessage_guard_noop (st : ConvState) (now : Int)
    (fb : Except String Feedback)
    (h : jsTrim st.currentMessage = "" ∨ st.userTurn = false) :
    sendMessage st now fb = (st, false) := by
  unfold sendMessage
  rw [if_pos h]

/-- A state with a request in flight (userTurn handed over). -/
def pendingConv : ConvState := ⟨[], "A point", 2, false, false, true, none⟩

/-- Witness for C6: submitting while a request is pending. -/
theorem sendMessage_guard_noop_witness :
    sendMessage pendingConv 5 (.ok analyzeFailFeedback) = (pendingConv, false) :=
  sendMessage_guard_noop pendingConv 5 (.ok analyzeFailFeedback) (Or.inr rfl)

/-- A state about to submit its first argument. -/
def submitConv : ConvState := ⟨[], "Hello", 0, true, false, false, none⟩

/-- Counterexample for C7: when analyzeFeedback fails (for example a
quota denial), argumentCount has nevertheless been incremented from 0
to 1 by the failed submission; it is not unchanged. -/
theorem round_counter_on_failure_counterexample :
    (sendMessage submitConv 0
        (.error "Daily call limit reached (50/day). Quota resets at 12:00 AM Pacific Time.")).1.argumentCount = 1 ∧
    submitConv.argumentCount = 0 := ⟨rfl, rfl⟩

/-- C7 (amended): argumentCount increases by exactly 1 on every
accepted submission, whether the exchange later succeeds or fails: a
QuotaDenied or ProviderError outcome does not roll it back, and
generateAIResponse never changes argumentCount, so a successful
human-to-opponent exchange also nets exactly +1. -/
theorem argumentCount_per_submission (st : ConvState) (now now2 : Int)
    (fb : Except String Feedback) (resp : Except String String) (rand : Nat)
    (hmsg : jsTrim st.currentMessage ≠ "") (hturn : st.userTurn = true) :
    (sendMessage st now fb).1.argumentCount = st.argumentCount + 1 ∧
    (∀ st2 : ConvState,
      (generateAIResponse st2 now2 rand resp).argumentCount = st2.argumentCount) := by
  constructor
  · unfold sendMessage
    rw [if_neg (by simp [hmsg, hturn])]
    cases fb <;> rfl
  · intro st2
    unfold generateAIResponse
    cases resp <;> rfl

/-- Witness for C7 on a provider failure. -/
theorem argumentCount_per_submission_witness :
    (sendMessage ⟨[], "Hi", 3, true, false, false, none⟩ 0
        (.error "ProviderError")).1.argumentCount = 3 + 1 ∧
    (∀ st2 : ConvState,
      (generateAIResponse st2 9 4 (.ok "ok")).argumentCount = st2.argumentCount) :=
  argumentCount_per_submission ⟨[], "Hi", 3, true, false, false, none⟩ 0 9
    (.error "ProviderError") (.ok "ok") 4 (by decide) rfl

/-- A session state at the moment the session ends with a request
still in flight. -/
def endedConv : ConvState := ⟨[], "", 1, false, false, true, none⟩

/-- Counterexample for C8: after endDebate the transcript is empty,
yet the response of the request that was in flight is appended to it
by generateAIResponse instead of being discarded. -/
theorem ended_discard_counterexample :
    (endDebate endedConv).debateEnded = true ∧
    (endDebate endedConv).messages.length = 0 ∧
    (generateAIResponse (endDebate endedConv) 100 3
        (.ok "A closing point")).messages.length = 1 :=
  ⟨rfl, rfl, rfl⟩

/-- C8 (amended): once the session has ended, an AI response resolving
from a request that was in flight is still appended to the transcript
and hands the turn back to the human; the code does not discard
responses arriving after Ended (the Ended flag itself stays set). -/
theorem ended_response_still_applied (st : ConvState) (now : Int) (rand : Nat)
    (text : String) (hend : st.debateEnded = true) :
    (generateAIResponse st now rand (.ok text)).messages =
      st.messages ++ [⟨.ai, text, now, aiCannedFeedback rand⟩] ∧
    (generateAIResponse st now rand (.ok text)).userTurn = true ∧
    (generateAIResponse st now rand (.ok text)).debateEnded = true := by
  refine ⟨rfl, rfl, ?_⟩
  show st.debateEnded = true
  exact hend

/-- Witness for C8 on a just-ended session. -/
theorem ended_response_still_applied_witness :
    (generateAIResponse (endDebate endedConv) 7 2 (.ok "Closing")).messages =
      (endDebate endedConv).messages ++ [⟨.ai, "Closing", 7, aiCannedFeedback 2⟩] ∧
    (generateAIResponse (endDebate endedConv) 7 2 (.ok "Closing")).userTurn = true ∧
    (generateAIResponse (endDebate endedConv) 7 2 (.ok "Closing")).debateEnded = true :=
  ended_response_still_applied (endDebate endedConv) 7 2 "Closing" rfl

/-- Counterexample for C9: a stored string that parses as JSON but has
the wrong shape (a truthy, wrongly typed callCount field) is copied
verbatim into the governor state instead of yielding the zeroed
state. -/
theorem loadDailyStats_wrong_shape_counterexample :
    (loadDailyStats "Sat Oct 11 2025"
        (some (some (Js.obj [("callCount", Js.str "not a number")])))).dailyCallCount =
      Js.str "not a number" ∧
    (initialRawStats "Sat Oct 11 2025").dailyCallCount = Js.num 0 ∧
    Js.str "not a number" ≠ Js.num 0 :=
  ⟨rfl, rfl, fun h => Js.noConfusion h⟩

/-- C9 (amended): loadDailyStats always terminates with a structured
result and fails open to the zeroed initial state whenever the stored
value is missing, is not valid JSON, parses to null (the field access
throws and the catch leaves the initial values), parses to any
non-object value, or parses to an object whose four fields are absent
or falsy; only a truthy field of the wrong type is copied verbatim. -/
theorem loadDailyStats_fails_open (today : String) :
    loadDailyStats today none = initialRawStats today ∧
    loadDailyStats today (some none) = initialRawStats today ∧
    loadDailyStats today (some (some .null)) = initialRawStats today ∧
    (∀ n : Int, loadDailyStats today (some (some (.num n))) = initialRawStats today) ∧
    (∀ b : Bool, loadDailyStats today (some (some (.bool b))) = initialRawStats today) ∧
    (∀ s : String, loadDailyStats today (some (some (.str s))) = initialRawStats today) ∧
    (∀ l : List Js, loadDailyStats today (some (some (.arr l))) = initialRawStats today) ∧
    (∀ fields : List (String × Js),
      ((fields.lookup "callCount").getD .undefined).truthy = false →
      ((fields.lookup "tokenCount").getD .undefined).truthy = false →
      ((fields.lookup "lastResetDate").getD .undefined).truthy = false →
      ((fields.lookup "isQuotaExceeded").getD .undefined).truthy = false →
      loadDailyStats today (some (some (.obj fields))) = initialRawStats today) := by
  refine ⟨rfl, rfl, rfl, fun n => rfl, fun b => rfl, fun s => rfl, fun l => rfl,
          fun fields h1 h2 h3 h4 => ?_⟩
  simp [loadDailyStats, Js.getField, jsOr, h1, h2, h3, h4, initialRawStats]

/-- Witness for C9: a missing value and a falsy-field object both load
to the zeroed state. -/
theorem loadDailyStats_fails_open_witness :
    loadDailyStats "Mon Oct 13 2025" none = initialRawStats "Mon Oct 13 2025" ∧
    loadDailyStats "Mon Oct 13 2025"
        (some (some (Js.obj [("callCount", Js.num 0)]))) =
      initialRawStats "Mon Oct 13 2025" :=
  ⟨(loadDailyStats_fails_open "Mon Oct 13 2025").1,
   (loadDailyStats_fails_open "Mon Oct 13 2025").2.2.2.2.2.2.2
     [("callCount", Js.num 0)] rfl rfl rfl rfl⟩

lemma scoreOf_bounds (v : Js) : 0 ≤ scoreOf v ∧ scoreOf v ≤ 100 := by
  cases h : jsToNumber v <;> simp [scoreOf, h]

lemma scoreOf_none (v : Js) (h : jsToNumber v = none) : scoreOf v = 0 := by
  simp [scoreOf, h]

lemma arrOrEmpty_not_arr (v : Js) (h : v.isArr = false) : arrOrEmpty v = [] := by
  cases v <;> simp_all [arrOrEmpty, Js.isArr]

lemma validateFeedback_props (j : Js) (g : Feedback)
    (h : validateFeedback j = some g) :
    0 ≤ g.score ∧ g.score ≤ 100 ∧
    g.strengths.length ≤ 3 ∧ g.improvements.length ≤ 3 ∧
    g.suggestions.length ≤ 3 ∧
    (jsToNumber ((j.getField "score").getD .undefined) = none → g.score = 0) ∧
    (((j.getField "strengths").getD .undefined).isArr = false → g.strengths = []) ∧
    (((j.getField "improvements").getD .undefined).isArr = false → g.improvements = []) ∧
    (((j.getField "fallaciesDetected").getD .undefined).isArr = false →
      g.fallaciesDetected = []) ∧
    (((j.getField "suggestions").getD .undefined).isArr = false → g.suggestions = []) := by
  have hbase : ∀ s st im fa su : Js,
      g = ⟨scoreOf s, (arrOrEmpty st).take 3, (arrOrEmpty im).take 3,
           arrOrEmpty fa, (arrOrEmpty su).take 3⟩ →
      j.getField "score" = some s →
      j.getField "strengths" = some st →
      j.getField "improvements" = some im →
      j.getField "fallaciesDetected" = some fa →
      j.getField "suggestions" = some su →
      0 ≤ g.score ∧ g.score ≤ 100 ∧
      g.strengths.length ≤ 3 ∧ g.improvements.length ≤ 3 ∧
      g.suggestions.length ≤ 3 ∧
      (jsToNumber ((j.getField "score").getD .undefined) = none → g.score = 0) ∧
      (((j.getField "strengths").getD .undefined).isArr = false → g.strengths = []) ∧
      (((j.getField "improvements").getD .undefined).isArr = false → g.improvements = []) ∧
      (((j.getField "fallaciesDetected").getD .undefined).isArr = false →
        g.fallaciesDetected = []) ∧
      (((j.getField "suggestions").getD .undefined).isArr = false → g.suggestions = []) := by
    intro s st im fa su hg hs hst him hfa hsu
    subst hg
    refine ⟨(scoreOf_bounds s).1, (scoreOf_bounds s).2, ?_, ?_, ?_, ?_, ?_, ?_, ?_, ?_⟩
    · simp [List.length_take]
    · simp [List.length_take]
    · simp [List.length_take]
    · rw [hs]; intro hn; exact scoreOf_none s hn
    · rw [hst]; intro ha; simp [arrOrEmpty_not_arr st ha]
    · rw [him]; intro ha; simp [arrOrEmpty_not_arr im ha]
    · rw [hfa]; intro ha; simp [arrOrEmpty_not_arr fa ha]
    · rw [hsu]; intro ha; simp [arrOrEmpty_not_arr su ha]
  unfold validateFeedback at h
  cases j with
  | null => simp [Js.getField] at h
  | undefined => simp [Js.getField] at h
  | obj fields =>
      simp only [Js.getField] at h
      simp only [Option.some.injEq] at h
      exact hbase _ _ _ _ _ h.symm rfl rfl rfl rfl rfl
  | bool b =>
      simp only [Js.getField] at h
      simp only [Option.some.injEq] at h
      exact hbase _ _ _ _ _ h.symm rfl rfl rfl rfl rfl
  | num n =>
      simp only [Js.getField] at h
      simp only [Option.some.injEq] at h
      exact hbase _ _ _ _ _ h.symm rfl rfl rfl rfl rfl
  | str s =>
      simp only [Js.getField] at h
      simp only [Option.some.injEq] at h
      exact hbase _ _ _ _ _ h.symm rfl rfl rfl rfl rfl
  | arr l =>
      simp only [Js.getField] at h
      simp only [Option.some.injEq] at h
      exact hbase _ _ _ _ _ h.symm rfl rfl rfl rfl rfl

lemma analyzeFeedback_ok_validated (st : GeminiState) (configured : Bool)
    (today : String) (now : Int) (plen : Nat)
    (provider : Except String String) (parse : String → Option Js) (fb : Feedback)
    (h : (analyzeFeedback st configured today now plen provider parse).1 = .ok fb) :
    ∃ j, validateFeedback j = some fb := by
  unfold analyzeFeedback at h
  split at h
  · simp at h
  · rcases hq : checkQuotaLimits st today now with ⟨chk, stq⟩
    rw [hq] at h
    dsimp only at h
    split at h
    · simp at h
    · rcases provider with e | raw
      · simp at h
      · dsimp only at h
        rcases hp : parse (jsTrim raw) with _ | j
        · rw [hp] at h
          simp at h
        · rw [hp] at h
          dsimp only at h
          rcases hv : validateFeedback j with _ | fb0
          · rw [hv] at h
            simp at h
          · rw [hv] at h
            simp at h
            exact ⟨j, by rw [hv, h]⟩

/-- C10: every Feedback successfully returned by analyzeFeedback is
sanitized: its score lies in [0, 100], strengths, improvements and
suggestions keep at most 3 entries, and on the parsed provider JSON a
non-numeric score becomes 0 while every non-array list field becomes
the empty list. -/
theorem analyzeFeedback_sanitized (st : GeminiState) (configured : Bool)
    (today : String) (now : Int) (plen : Nat)
    (provider : Except String String) (parse : String → Option Js) (fb : Feedback)
    (h : (analyzeFeedback st configured today now plen provider parse).1 = .ok fb) :
    (0 ≤ fb.score ∧ fb.score ≤ 100 ∧
     fb.strengths.length ≤ 3 ∧ fb.improvements.length ≤ 3 ∧
     fb.suggestions.length ≤ 3) ∧
    (∀ (j : Js) (g : Feedback), validateFeedback j = some g →
      (0 ≤ g.score ∧ g.score ≤ 100) ∧
      (jsToNumber ((j.getField "score").getD .undefined) = none → g.score = 0) ∧
      (((j.getField "strengths").getD .undefined).isArr = false → g.strengths = []) ∧
      (((j.getField "improvements").getD .undefined).isArr = false →
        g.improvements = []) ∧
      (((j.getField "fallaciesDetected").getD .undefined).isArr = false →
        g.fallaciesDetected = []) ∧
      (((j.getField "suggestions").getD .undefined).isArr = false →
        g.suggestions = [])) := by
  obtain ⟨j, hv⟩ :=
    analyzeFeedback_ok_validated st configured today now plen provider parse fb h
  have hp := validateFeedback_props j fb hv
  refine ⟨⟨hp.1, hp.2.1, hp.2.2.1, hp.2.2.2.1, hp.2.2.2.2.1⟩, fun j2 g hg => ?_⟩
  have hq := validateFeedback_props j2 g hg
  exact ⟨⟨hq.1, hq.2.1⟩, hq.2.2.2.2.2.1, hq.2.2.2.2.2.2.1,
         hq.2.2.2.2.2.2.2.1, hq.2.2.2.2.2.2.2.2.1, hq.2.2.2.2.2.2.2.2.2⟩

/-- A provider JSON object with a numeric score and four strengths. -/
def sampleParsed : Js :=
  Js.obj [("score", Js.num 85),
          ("strengths", Js.arr [Js.str "s1", Js.str "s2", Js.str "s3", Js.str "s4"])]

/-- The sanitized feedback produced from sampleParsed. -/
def sampleFeedback : Feedback :=
  ⟨85, [Js.str "s1", Js.str "s2", Js.str "s3"], [], [], []⟩

/-- Witness for C10 on a concrete provider response. -/
theorem analyzeFeedback_sanitized_witness :
    (0 ≤ sampleFeedback.score ∧ sampleFeedback.score ≤ 100 ∧
     sampleFeedback.strengths.length ≤ 3 ∧ sampleFeedback.improvements.length ≤ 3 ∧
     sampleFeedback.suggestions.length ≤ 3) ∧
    (∀ (j : Js) (g : Feedback), validateFeedback j = some g →
      (0 ≤ g.score ∧ g.score ≤ 100) ∧
      (jsToNumber ((j.getField "score").getD .undefined) = none → g.score = 0) ∧
      (((j.getField "strengths").getD .undefined).isArr = false → g.strengths = []) ∧
      (((j.getField "improvements").getD .undefined).isArr = false →
        g.improvements = []) ∧
      (((j.getField "fallaciesDetected").getD .undefined).isArr = false →
        g.fallaciesDetected = []) ∧
      (((j.getField "suggestions").getD .undefined).isArr = false →
        g.suggestions = [])) :=
  analyzeFeedback_sanitized (zeroQuotaState "Sat Oct 11 2025") true
    "Sat Oct 11 2025" 0 0 (.ok "x") (fun _ => some sampleParsed)
    sampleFeedback rfl
